import Mathlib

/-!
Verification of the Hub dataset core (`src/hub/api/dataset.py`) against its
natural-language specification.  The Python code is shallowly embedded:
filesystem effects become explicit state passing over an abstract `FsState`,
exceptions become `Except`, and Python string operations are reproduced over
the character list of a `String` so that every definition is executable.
-/

namespace Hub

/-! ## Python string primitives

Reimplemented on `String.data` with structural recursion so that the kernel
can evaluate them on concrete inputs. -/

/-- Python `c in s` for a one-character needle (used as `"w" in mode`). -/
def strContains (s : String) (c : Char) : Bool :=
  s.data.contains c

/-- Python `s.startswith(p)`. -/
def strStartsWith (s p : String) : Bool :=
  p.data.isPrefixOf s.data

/-- Python `s.endswith(p)`. -/
def strEndsWith (s p : String) : Bool :=
  p.data.isSuffixOf s.data

/-- Python `s[n:]`. -/
def strDrop (s : String) (n : Nat) : String :=
  ⟨s.data.drop n⟩

/-- Python `len(s)`. -/
def strLen (s : String) : Nat :=
  s.data.length

/-- Python `list.split(sep)` on characters: `splitChars sep l` cuts `l` at every
occurrence of `sep`; the empty list yields one empty group, as in Python where
`"".split(sep) == [""]`. -/
def splitChars (sep : Char) : List Char → List (List Char)
  | [] => [[]]
  | c :: rest =>
    if c = sep then [] :: splitChars sep rest
    else
      match splitChars sep rest with
      | [] => [[c]]
      | g :: gs => (c :: g) :: gs

/-- Python `s.split("/")`. -/
def splitSlash (s : String) : List String :=
  (splitChars '/' s.data).map (fun l => ⟨l⟩)

/-! ## Error taxonomy (`hub.exceptions` plus builtin Python errors) -/

/-- Errors raised by the dataset core: the three `hub.exceptions` classes used
by `_check_and_prepare_dir`, plus Python builtins (`ValueError` for malformed
selectors, `KeyError` for failed registry lookups, `AssertionError` for the
shape assertion, `IndexError` for an empty-selector subscript). -/
inductive HubError where
  | datasetNotFound
  | notDatasetToOverwrite
  | notDatasetToAppend
  | invalidSelector (msg : String)
  | keyError (key : String)
  | assertionFailed
  | indexError
  | pyError (msg : String)
deriving DecidableEq, Repr

/-! ## Schema trees and flattening

The schema machinery (`hub.features.features`, `hub.features.serialize`,
`hub.features.deserialize`) is not under `src/`; it is modelled from the spec
(§3 SchemaNode, §4.2 flattening, §6 schema serialization contract). -/

/-- Modelled from the spec: a schema node (§3) is a closed tagged variant over
Primitive(dtype), TensorNode(shape, dtype, chunkSpec) and GroupNode(mapping
name to node); the group mapping is kept in declaration order. -/
inductive Schema where
  | prim (dtype : String)
  | tensor (shape : List (Option Int)) (maxShape : List Int)
      (dtype : String) (chunks : Option Nat)
  | dict (entries : List (String × Schema))

/-- Modelled from the spec: one flattened field descriptor (§3 FieldDescriptor,
the `FlatTensor` consumed by `dataset.py`): slash-delimited path, per-sample
shape, max-shape, dtype tag and chunk spec. -/
structure FlatTensor where
  path : String
  shape : List (Option Int)
  max_shape : List Int
  dtype : String
  chunks : Option Nat
deriving DecidableEq, Repr

mutual

/-- Modelled from the spec: `schema._flatten()` (§4.2) is a depth-first
traversal emitting one descriptor per Primitive/TensorNode leaf, the path
built from the traversal's name stack with `/` separators. -/
def flattenAt : Schema → String → List FlatTensor
  | .prim d, p => [⟨p, [], [], d, none⟩]
  | .tensor sh mx d c, p => [⟨p, sh, mx, d, c⟩]
  | .dict es, p => flattenList es p

/-- Flattening of a group node's entries, in declaration order. -/
def flattenList : List (String × Schema) → String → List FlatTensor
  | [], _ => []
  | (n, s) :: rest, p => flattenAt s (p ++ "/" ++ n) ++ flattenList rest p

end

/-- Flattening of a whole schema tree: paths start at the root name stack,
so a top-level group entry `image` flattens to path `/image`. -/
def schemaFlatten (s : Schema) : List FlatTensor :=
  flattenAt s ""

/-- Modelled from the spec: the structured value produced by the schema
serialization contract (§6); a mirror of the schema tree. -/
inductive SVal where
  | sprim (dtype : String)
  | stensor (shape : List (Option Int)) (maxShape : List Int)
      (dtype : String) (chunks : Option Nat)
  | sdict (entries : List (String × SVal))

mutual

/-- Modelled from the spec: `serialize(schemaTree) -> structured value` (§6). -/
def serialize : Schema → SVal
  | .prim d => .sprim d
  | .tensor sh mx d c => .stensor sh mx d c
  | .dict es => .sdict (serializeList es)

/-- Serialization of a group node's entries. -/
def serializeList : List (String × Schema) → List (String × SVal)
  | [] => []
  | (n, s) :: rest => (n, serialize s) :: serializeList rest

end

mutual

/-- Modelled from the spec: `deserialize(value) -> schemaTree` (§6). -/
def deserialize : SVal → Schema
  | .sprim d => .prim d
  | .stensor sh mx d c => .tensor sh mx d c
  | .sdict es => .dict (deserializeList es)

/-- Deserialization of a group node's entries. -/
def deserializeList : List (String × SVal) → List (String × Schema)
  | [] => []
  | (n, s) :: rest => (n, deserialize s) :: deserializeList rest

end

mutual

/-- Deserialization inverts serialization on every schema tree. -/
theorem deserialize_serialize (s : Schema) : deserialize (serialize s) = s := by
  cases s with
  | prim d => rfl
  | tensor sh mx d c => rfl
  | dict es =>
    simp only [serialize, deserialize, deserializeList_serializeList]

/-- Deserialization inverts serialization on group entries. -/
theorem deserializeList_serializeList (l : List (String × Schema)) :
    deserializeList (serializeList l) = l := by
  cases l with
  | nil => rfl
  | cons hd tl =>
    cases hd with
    | mk n s =>
      simp only [serializeList, deserializeList, deserialize_serialize,
        deserializeList_serializeList]

end

/-! ## Abstract filesystem state

The observables `dataset.py` reads from the target location: whether
`meta.json` exists (and its content), whether the directory exists, and the
number of entries under it (`get_file_count` at `dataset.py:44`). -/

/-- The persisted metadata record (`meta.json` layout, spec §6): sample shape,
serialized schema, format version. -/
structure StoredMeta where
  shape : List (Option Int)
  schema : SVal
  version : Nat

/-- Abstract state of the storage tree rooted at the dataset's path:
the metadata record if present, whether the directory itself exists,
the number of entries that are neither the metadata record nor tensor
stores, and the tensor store namespaces created so far. -/
structure FsState where
  meta : Option StoredMeta
  dirExists : Bool
  extraEntries : Nat
  tensorDirs : List String

/-- Python `fs.rm(path, recursive=True)`: the whole tree, the directory
included, is gone. -/
def fsRmTree (_st : FsState) : FsState :=
  ⟨none, false, 0, []⟩

/-- Python `fs.makedirs(path)`: the directory exists afterwards. -/
def fsMakedirs (st : FsState) : FsState :=
  { st with dirExists := true }

/-- Python `fs_map["meta.json"] = ...`: stores the metadata record. -/
def fsWriteMeta (st : FsState) (m : StoredMeta) : FsState :=
  { st with meta := some m }

/-- Python `self._fs.makedirs(posixpath.join(path, ...))` for one tensor store
(`_generate_storage_tensors`, `dataset.py:157`). -/
def fsAddTensorDir (st : FsState) (p : String) : FsState :=
  { st with tensorDirs := st.tensorDirs ++ [p] }

/-- Embeds `get_file_count` (`dataset.py:44`): the number of entries listed
under the path — the metadata record, tensor stores and any other entries. -/
def get_file_count (st : FsState) : Nat :=
  (if st.meta.isSome then 1 else 0) + st.extraEntries + st.tensorDirs.length

/-! ## Lifecycle resolution -/

/-- Embeds `Dataset._check_and_prepare_dir` (`dataset.py:127-151`): decides
create-versus-open from the metadata record, the access-mode string (Python
substring tests `"w" in mode`, `"r" in mode`) and the directory state; returns
the possibly-mutated storage state together with `needcreate` or the raised
error. -/
def check_and_prepare_dir (st : FsState) (mode : String) :
    FsState × Except HubError Bool :=
  let exist_meta := st.meta.isSome
  if exist_meta then
    if strContains mode 'w' then
      (fsMakedirs (fsRmTree st), .ok true)
    else
      (st, .ok false)
  else
    if strContains mode 'r' then
      (st, .error .datasetNotFound)
    else
      let exist_dir := st.dirExists
      if !exist_dir then
        (fsMakedirs st, .ok true)
      else if get_file_count st > 0 then
        if strContains mode 'w' then
          (st, .error .notDatasetToOverwrite)
        else
          (st, .error .notDatasetToAppend)
      else
        (st, .ok true)

/-- The enumerated access mode of the spec data model (§3). -/
inductive AccessMode where
  | read
  | write
  | append
deriving DecidableEq, Repr

/-- The mode string the Python constructor receives for each access mode. -/
def modeStr : AccessMode → String
  | .read => "r"
  | .write => "w"
  | .append => "a"

/-- The §4.1 transition table, written row by row from the spec: metadata
present and write-capable mode destroys and recreates the tree then Creates;
metadata present otherwise Opens; no metadata with Read mode fails
DatasetNotFound; no metadata with an absent directory creates it and Creates;
no metadata with a nonempty directory fails NotDatasetToOverwrite under a
write-capable mode and NotDatasetToAppend otherwise; the remaining case
(empty directory, mode not Read) Creates. -/
def lifecycleTable (st : FsState) (m : AccessMode) :
    FsState × Except HubError Bool :=
  if st.meta.isSome then
    if m = .write then (fsMakedirs (fsRmTree st), .ok true)
    else (st, .ok false)
  else if m = .read then (st, .error .datasetNotFound)
  else if !st.dirExists then (fsMakedirs st, .ok true)
  else if get_file_count st > 0 then
    if m = .write then (st, .error .notDatasetToOverwrite)
    else (st, .error .notDatasetToAppend)
  else (st, .ok true)

/-- C1: for every combination of metadata presence, requested access mode and
directory presence/emptiness, the constructor's lifecycle resolution
(`_check_and_prepare_dir`) matches the §4.1 transition table exactly,
including the storage-state effects of each row. -/
theorem c1_lifecycle_matches_table (st : FsState) (m : AccessMode) :
    check_and_prepare_dir st (modeStr m) = lifecycleTable st m := by
  rcases st with ⟨meta, dir, extra, tdirs⟩
  cases m <;> cases meta <;> cases dir <;>
    simp [check_and_prepare_dir, lifecycleTable, modeStr, strContains]

/-! ## The constructor (`Dataset.__init__`, `dataset.py:49-125`) -/

/-- Python `shape = shape or (None,)` (`dataset.py:85`): an omitted (`None`)
or empty (falsy) shape defaults to `(None,)`. -/
def defaultShape : Option (List (Option Int)) → List (Option Int)
  | none => [none]
  | some l => if l.isEmpty then [none] else l

/-- Modelled from the spec: `featurify` (`hub.features.features`, not under
`src/`) coerces the `schema` argument to a schema tree; the constructor's
docstring requires a schema for the create modes, so a missing one raises. -/
def featurify : Option Schema → Except HubError Schema
  | some s => .ok s
  | none => .error (.pyError "schema is required to create a dataset")

/-- The observable outcome of a successful construction: the stored
`self.mode`, `self.shape` and `self.schema`, the registered field paths
(keys of `self._tensors` in registration order), and the mode string under
which every `DynamicTensor` handle was constructed (`mode=self.mode` at
`dataset.py:162` and `dataset.py:177`). -/
structure DatasetM where
  selfMode : String
  shape : List (Option Int)
  schema : Schema
  tensorPaths : List String
  handleMode : String

/-- Embeds `Dataset.__init__` (`dataset.py:49-125`) over the abstract storage
state: shape defaulting and the rank-1 assertion come first (`dataset.py:85-88`,
before any storage access); `self.mode = mode` is stored (`dataset.py:92`);
lifecycle resolution runs (`dataset.py:98`); the safe-mode branch
(`dataset.py:102-103`) rebinds only the local `mode` variable, which nothing
reads afterwards; the open branch reads the metadata record and attaches
handles with `mode=self.mode`; the create branch writes the metadata record,
flattens the schema and constructs the field stores, rolling the whole tree
back if featurification fails (failure injection for the later steps is
modelled separately by `createTailE`). -/
def datasetInit (st : FsState) (mode : String) (safe_mode : Bool)
    (shape0 : Option (List (Option Int))) (schema0 : Option Schema) :
    FsState × Except HubError DatasetM :=
  let shape := defaultShape shape0
  if shape.length ≠ 1 then (st, .error .assertionFailed)
  else
    let selfMode := mode
    match check_and_prepare_dir st selfMode with
    | (st1, .error e) => (st1, .error e)
    | (st1, .ok needcreate) =>
      let _mode := if safe_mode && !needcreate then "r" else mode
      if !needcreate then
        match st1.meta with
        | none => (st1, .error (.keyError "meta.json"))
        | some m =>
          let sch := deserialize m.schema
          let flat := schemaFlatten sch
          (st1, .ok ⟨selfMode, m.shape, sch, flat.map (·.path), selfMode⟩)
      else
        match featurify schema0 with
        | .error e => (fsRmTree st1, .error e)
        | .ok sch =>
          let meta : StoredMeta := ⟨shape, serialize sch, 1⟩
          let st2 := fsWriteMeta st1 meta
          let flat := schemaFlatten sch
          let st3 := flat.foldl (fun s t => fsAddTensorDir s t.path) st2
          (st3, .ok ⟨selfMode, shape, sch, flat.map (·.path), selfMode⟩)

/-- C9: the sample shape, after defaulting an omitted or empty value to
`(None,)`, must have exactly one entry; any other length fails the assertion
with the storage state untouched — and the defaulting itself sends both the
omitted and the empty shape to `(None,)`. -/
theorem c9_shape_assertion (st : FsState) (mode : String) (safe_mode : Bool)
    (shape0 : Option (List (Option Int))) (schema0 : Option Schema)
    (h : (defaultShape shape0).length ≠ 1) :
    datasetInit st mode safe_mode shape0 schema0 = (st, .error .assertionFailed)
      ∧ defaultShape none = [none] ∧ defaultShape (some []) = [none] := by
  refine ⟨?_, rfl, rfl⟩
  simp [datasetInit, h]

/-- Witness for C9: a two-entry shape fails the assertion and leaves a
concrete storage state unchanged. -/
theorem c9_shape_assertion_witness :
    datasetInit ⟨none, true, 0, []⟩ "a" false (some [none, none]) none
        = (⟨none, true, 0, []⟩, .error .assertionFailed)
      ∧ defaultShape none = [none] ∧ defaultShape (some []) = [none] :=
  c9_shape_assertion ⟨none, true, 0, []⟩ "a" false (some [none, none]) none
    (by decide)

/-- A schema with one group of two leaves, used for concrete evaluations. -/
def demoSchema : Schema :=
  .dict [("group", .dict [("a", .prim "int32"), ("b", .prim "int32")])]

/-- A storage state holding an already-created dataset with `demoSchema`. -/
def demoExistingFs : FsState :=
  ⟨some ⟨[some 5], serialize demoSchema, 1⟩, true, 0,
    ["/group/a", "/group/b"]⟩

/-- C2 (evidence): reopening an existing dataset with `safe_mode=True` and
requested mode `"a"` succeeds as an Open, yet every field handle is
constructed with mode `"a"`, not the downgraded `"r"`: line 103 of
`dataset.py` rebinds only the local `mode` after `self.mode` was already set,
and `_open_storage_tensors` reads `self.mode`. -/
theorem c2_safe_mode_downgrade_dead :
    ((datasetInit demoExistingFs "a" true none none).2.map
        DatasetM.handleMode) = .ok "a" ∧ "a" ≠ "r" := by
  constructor
  · rfl
  · decide

/-! ## Round-trip through the metadata record -/

/-- Modelled from the spec: `Dataset.commit` invokes each field handle's own
flush operation (`DynamicTensor.commit`, outside `src/`); it never touches the
metadata record (§4.5: no in-place update), so on the metadata-visible
abstract storage state it is the identity. -/
def commitFs (st : FsState) : FsState :=
  st

/-- A location with no directory at all — a fresh url. -/
def absentFs : FsState :=
  ⟨none, false, 0, []⟩

/-- Creating a dataset at a fresh url with shape `(N,)` and schema `S`,
committing, then reopening read-only at the same url: the pair of
construction results. -/
def createThenReopen (N : Int) (S : Schema) :
    (FsState × Except HubError DatasetM) × (FsState × Except HubError DatasetM) :=
  let r1 := datasetInit absentFs "w" false (some [some N]) (some S)
  let st1 := commitFs r1.1
  (r1, datasetInit st1 "r" false none none)

/-- Appending tensor-store namespaces never changes the metadata record. -/
theorem foldl_addTensorDir_meta (l : List FlatTensor) (st : FsState) :
    (l.foldl (fun s t => fsAddTensorDir s t.path) st).meta = st.meta := by
  induction l generalizing st with
  | nil => rfl
  | cons hd tl ih =>
    rw [List.foldl_cons, ih]
    rfl

/-- C4: creating a dataset with sample shape `(N,)` and schema `S`, committing
and reopening it read-only recovers the same sample shape, a structurally
equal schema, and an identical set of registered field paths. -/
theorem c4_roundtrip (N : Int) (S : Schema) :
    ∃ d d₂ : DatasetM,
      (createThenReopen N S).1.2 = .ok d ∧
      (createThenReopen N S).2.2 = .ok d₂ ∧
      d.shape = [some N] ∧ d₂.shape = [some N] ∧
      d₂.schema = S ∧ d₂.tensorPaths = d.tensorPaths := by
  refine ⟨⟨"w", [some N], S, (schemaFlatten S).map (·.path), "w"⟩,
          ⟨"r", [some N], S, (schemaFlatten S).map (·.path), "r"⟩,
          ?_, ?_, rfl, rfl, rfl, rfl⟩ <;>
    simp [createThenReopen, datasetInit, defaultShape, check_and_prepare_dir,
      strContains, commitFs, fsWriteMeta, fsMakedirs, featurify,
      foldl_addTensorDir_meta, deserialize_serialize, absentFs]

/-! ## The create tail with failure injection and an event trace

The `try` block of the create branch (`dataset.py:112-125`) is re-embedded
with two injection points — schema flattening and per-field store
construction, the two steps §7 names as rollback triggers — and with a trace
of the storage events it performs, so that both the rollback claim and the
ordering of the metadata write can be settled.  External errors are opaque
numeric codes. -/

/-- One storage event performed by the create tail. -/
inductive CEvent where
  | metaWrite
  | makedirs (p : String)
  | construct (p : String)
  | rmTree
deriving DecidableEq, Repr

/-- The injectable external collaborators of the create tail: the result of
`schema._flatten()` and of each `DynamicTensor(...)` construction. -/
structure CreateEnv where
  flattenR : Schema → Except Nat (List FlatTensor)
  constructR : FlatTensor → Except Nat Unit

/-- Embeds the loop of `_generate_storage_tensors` (`dataset.py:153-167`):
for each flat tensor, first create its storage namespace, then construct its
handle; a construction error aborts the loop and surfaces. -/
def generateTensorsE (env : CreateEnv) :
    List FlatTensor → FsState → List CEvent →
      FsState × List CEvent × Except Nat (List String)
  | [], st, tr => (st, tr, .ok [])
  | t :: rest, st, tr =>
    let st1 := fsAddTensorDir st t.path
    let tr1 := tr ++ [CEvent.makedirs t.path]
    match env.constructR t with
    | .error e => (st1, tr1, .error e)
    | .ok _ =>
      match generateTensorsE env rest st1 (tr1 ++ [CEvent.construct t.path]) with
      | (st2, tr2, .ok ps) => (st2, tr2, .ok (t.path :: ps))
      | (st2, tr2, .error e) => (st2, tr2, .error e)

/-- Embeds the body of the create branch's `try` block (`dataset.py:113-122`):
serialize the schema into the metadata record and write it, then flatten, then
construct the field stores. -/
def createBodyE (env : CreateEnv) (sch : Schema) (shape : List (Option Int))
    (st : FsState) : FsState × List CEvent × Except Nat (StoredMeta × List String) :=
  let meta : StoredMeta := ⟨shape, serialize sch, 1⟩
  let st1 := fsWriteMeta st meta
  let tr1 := [CEvent.metaWrite]
  match env.flattenR sch with
  | .error e => (st1, tr1, .error e)
  | .ok flat =>
    match generateTensorsE env flat st1 tr1 with
    | (st2, tr2, .ok ps) => (st2, tr2, .ok (meta, ps))
    | (st2, tr2, .error e) => (st2, tr2, .error e)

/-- Embeds the `try`/`except` of the create branch (`dataset.py:112-125`): on
any error from the body, remove the whole directory tree recursively and
re-raise the same error. -/
def createTailE (env : CreateEnv) (sch : Schema) (shape : List (Option Int))
    (st : FsState) : FsState × List CEvent × Except Nat (StoredMeta × List String) :=
  match createBodyE env sch shape st with
  | (st1, tr, .error e) => (fsRmTree st1, tr ++ [CEvent.rmTree], .error e)
  | (st1, tr, .ok r) => (st1, tr, .ok r)

/-- A dataset is discoverable at a location exactly when the metadata record
is present there (§4.1 keys lifecycle resolution off `meta.json`). -/
def datasetDiscoverable (st : FsState) : Bool :=
  st.meta.isSome

/-- C3: whenever schema flattening or any field-store construction fails
during a Create, the whole newly-created tree is deleted (nothing remains:
no metadata record, no directory, no entries — in particular no dataset is
discoverable), the deletion happens before the error propagates, and the
original error is re-raised unchanged. -/
theorem c3_create_rollback (env : CreateEnv) (sch : Schema)
    (shape : List (Option Int)) (st : FsState) (e : Nat)
    (h : (createBodyE env sch shape st).2.2 = .error e) :
    createTailE env sch shape st =
      (⟨none, false, 0, []⟩,
        (createBodyE env sch shape st).2.1 ++ [CEvent.rmTree], .error e)
      ∧ datasetDiscoverable (createTailE env sch shape st).1 = false := by
  rcases hb : createBodyE env sch shape st with ⟨st1, tr, r⟩
  rw [hb] at h
  cases r with
  | error e2 =>
    cases h
    exact ⟨by simp [createTailE, hb, fsRmTree], by simp [createTailE, hb,
      fsRmTree, datasetDiscoverable]⟩
  | ok r => cases h

/-- An environment whose field-store construction always fails with code 7. -/
def failingConstructEnv : CreateEnv :=
  ⟨fun s => .ok (schemaFlatten s), fun _ => .error 7⟩

/-- Witness for C3: with a one-group schema and a failing store construction
on a concrete just-created directory, the body fails with code 7, the tail
ends in the empty tree, and error 7 is re-raised. -/
theorem c3_create_rollback_witness :
    createTailE failingConstructEnv demoSchema [some 3] ⟨none, true, 0, []⟩ =
      (⟨none, false, 0, []⟩,
        (createBodyE failingConstructEnv demoSchema [some 3]
          ⟨none, true, 0, []⟩).2.1 ++ [CEvent.rmTree], .error 7)
      ∧ datasetDiscoverable
          (createTailE failingConstructEnv demoSchema [some 3]
            ⟨none, true, 0, []⟩).1 = false :=
  c3_create_rollback failingConstructEnv demoSchema [some 3]
    ⟨none, true, 0, []⟩ 7 rfl

/-! ## Ordering of the metadata write (C7) -/

/-- The environment in which every external step succeeds: flattening is the
schema's own `_flatten`, and every store construction succeeds. -/
def okEnv : CreateEnv :=
  ⟨fun s => .ok (schemaFlatten s), fun _ => .ok ()⟩

/-- Whether an event is a field-store construction. -/
def isConstructE : CEvent → Bool
  | .construct _ => true
  | _ => false

/-- The number of metadata writes in a trace. -/
def metaWriteCount (tr : List CEvent) : Nat :=
  tr.countP (fun e => e = CEvent.metaWrite)

/-- C7 as claimed, on traces: the metadata record is written exactly once and
only after every field-store construction — that is, no construction event
follows the first metadata write... this predicate holds of a trace exactly
when the write postdates all constructions. -/
def writeAfterConstructs : List CEvent → Bool
  | [] => true
  | CEvent.metaWrite :: rest => rest.all (fun e => !isConstructE e)
  | _ :: rest => writeAfterConstructs rest

/-- The trace of a successful Create of `demoSchema` at a fresh directory. -/
def demoCreateTrace : List CEvent :=
  (createTailE okEnv demoSchema [some 3] ⟨none, true, 0, []⟩).2.1

/-- C7 (counterexample): on a concrete successful Create (schema with fields
`/group/a` and `/group/b`), the metadata record is written exactly once but
the write happens BEFORE the field stores are constructed, not after — the
claimed ordering fails. -/
theorem c7_counterexample :
    ¬ (metaWriteCount demoCreateTrace = 1
        ∧ writeAfterConstructs demoCreateTrace = true) := by
  decide

/-- Whatever the environment does — constructions may fail at any point — the
tensor loop only ever appends makedirs and construct events to the trace it is
given, never a metadata write. -/
theorem generateTensorsE_trace (env : CreateEnv) (flat : List FlatTensor) :
    ∀ (st : FsState) (tr : List CEvent),
      ∃ extra : List CEvent,
        (generateTensorsE env flat st tr).2.1 = tr ++ extra ∧
        extra.all (fun e => e ≠ CEvent.metaWrite) = true := by
  induction flat with
  | nil =>
    intro st tr
    exact ⟨[], by simp [generateTensorsE], rfl⟩
  | cons hd tl ih =>
    intro st tr
    simp only [generateTensorsE]
    rcases hc : env.constructR hd with e | u
    · exact ⟨[CEvent.makedirs hd.path], by simp, by simp⟩
    · rcases ih (fsAddTensorDir st hd.path)
          (tr ++ [CEvent.makedirs hd.path] ++ [CEvent.construct hd.path]) with
        ⟨extra2, h1, h2⟩
      refine ⟨[CEvent.makedirs hd.path, CEvent.construct hd.path] ++ extra2,
        ?_, ?_⟩
      · rcases hr : generateTensorsE env tl (fsAddTensorDir st hd.path)
            (tr ++ [CEvent.makedirs hd.path] ++ [CEvent.construct hd.path]) with
          ⟨st2, tr2, r⟩
        rw [hr] at h1
        cases r <;> simpa [List.append_assoc] using h1
      · simpa using h2

/-- Every Create — a failing one included — produces a trace that opens with
the single metadata write: the remaining events (store namespaces, store
constructions, the rollback deletion) never write the record again. -/
theorem createTailE_trace (env : CreateEnv) (sch : Schema)
    (shape : List (Option Int)) (st : FsState) :
    ∃ extra : List CEvent,
      (createTailE env sch shape st).2.1 = CEvent.metaWrite :: extra ∧
      extra.all (fun e => e ≠ CEvent.metaWrite) = true := by
  rcases hf : env.flattenR sch with e | flat
  · exact ⟨[CEvent.rmTree],
      by simp [createTailE, createBodyE, hf], by simp⟩
  · rcases generateTensorsE_trace env flat
        (fsWriteMeta st ⟨shape, serialize sch, 1⟩) [CEvent.metaWrite] with
      ⟨extra2, h1, h2⟩
    rcases hr : generateTensorsE env flat
        (fsWriteMeta st ⟨shape, serialize sch, 1⟩) [CEvent.metaWrite] with
      ⟨st2, tr2, r⟩
    rw [hr] at h1
    simp only [List.cons_append, List.nil_append] at h1
    cases r with
    | error e =>
      refine ⟨extra2 ++ [CEvent.rmTree],
        by simp [createTailE, createBodyE, hf, hr, h1], ?_⟩
      simp only [List.all_append, h2]
      simp
    | ok ps =>
      exact ⟨extra2, by simp [createTailE, createBodyE, hf, hr, h1], h2⟩

/-- C7 (amended): during every Create, successful or failed, the metadata
record is written exactly once, and that write happens before field-store
construction, not after it — the trace before the first (only) metadata write
contains no store-construction event. -/
theorem c7_amended_meta_written_once_first (env : CreateEnv) (sch : Schema)
    (shape : List (Option Int)) (st : FsState) :
    metaWriteCount (createTailE env sch shape st).2.1 = 1
      ∧ ((createTailE env sch shape st).2.1.takeWhile
          (fun e => e ≠ CEvent.metaWrite)).all (fun e => !isConstructE e) = true := by
  rcases createTailE_trace env sch shape st with ⟨extra, htr, hall⟩
  rw [htr]
  constructor
  · simp only [metaWriteCount, List.countP_cons]
    have : extra.countP (fun e => e = CEvent.metaWrite) = 0 := by
      rw [List.countP_eq_zero]
      intro e he
      have h3 := List.all_eq_true.mp hall e he
      simpa using h3
    simp [this]
  · simp [List.takeWhile]

/-! ## The slice router (`__getitem__`/`__setitem__`, `dataset.py:181-238`,
and `_get_dictionary`, `dataset.py:287-306`) -/

/-- One term of a selector: a field-path string, an integer position, or a
Python `slice(a, b)`. -/
inductive SelTerm where
  | path (s : String)
  | index (i : Int)
  | rng (a b : Int)
deriving DecidableEq, Repr

/-- Python truthiness of a range term (`slice_ if slice_ else ...` at
`dataset.py:300`): the integer `0` is falsy; every other integer and every
`slice` object is truthy. -/
def SelTerm.truthy : SelTerm → Bool
  | .index i => i != 0
  | _ => true

/-- Registered field paths are slash-led (`/image`, `/label`); a bare selector
path such as `label` resolves against them, so a missing leading separator is
supplied. -/
def normalizePath (s : String) : String :=
  if strStartsWith s "/" then s else "/" ++ s

/-- Modelled from the spec: `slice_split` (`hub.api.dataset_utils`, not under
`src/`) splits a selector into an optional subpath and the remaining range
terms, taking at most one leading path term (§4.3). -/
def slice_split : List SelTerm → Option String × List SelTerm
  | .path s :: rest => (some (normalizePath s), rest)
  | l => (none, l)

/-- Modelled from the spec: `slice_extract_info` (`hub.api.dataset_utils`, not
under `src/`) resolves one range term against a dimension bound `n`, returning
the view length and offset (§4.3 rule 1). -/
def slice_extract_info (t : SelTerm) (n : Int) : Except HubError (Int × Int) :=
  match t with
  | .index i => if 0 ≤ i ∧ i < n then .ok (1, i) else .error .indexError
  | .rng a b =>
    if 0 ≤ a ∧ a ≤ b ∧ b ≤ n then .ok (b - a, a)
    else .error (.pyError "range out of bounds")
  | .path _ => .error (.invalidSelector "path term is not a range")

/-- The `slice_` argument a `TensorView` is constructed with: a single term
(`slice_=slice(...)` or `slice_=slice_list[0]`) or the whole remaining term
list (`slice_=slice_list`). -/
inductive SliceArg where
  | one (t : SelTerm)
  | many (ts : List SelTerm)
deriving DecidableEq, Repr

/-- A field view: the lazy `TensorView(dataset=self, subpath=..., slice_=...)`
reference, without the owning dataset (views never own data). -/
structure TView where
  subpath : String
  arg : SliceArg
deriving DecidableEq, Repr

/-- A nested Python dictionary whose leaves are field views, in insertion
order. -/
inductive TDict where
  | mk (entries : List (String × (TDict ⊕ TView)))

/-- The entry list of a nested dictionary. -/
def TDict.entries : TDict → List (String × (TDict ⊕ TView))
  | .mk es => es

/-- Python `d[k] = v` on an association list: replaces in place when the key
is present (insertion order kept), appends otherwise. -/
def setKey {α : Type} : List (String × α) → String → α → List (String × α)
  | [], k, v => [(k, v)]
  | (k1, v1) :: rest, k, v =>
    if k1 = k then (k, v) :: rest else (k1, v1) :: setKey rest k v

/-- Python `d[k]` lookup on an association list. -/
def lookupKey {α : Type} : List (String × α) → String → Option α
  | [], _ => none
  | (k1, v1) :: rest, k => if k1 = k then some v1 else lookupKey rest k

/-- Embeds the nested-dictionary walk of `_get_dictionary`
(`dataset.py:295-303`): each non-terminal path segment opens (or creates) a
sub-dictionary, the terminal segment is assigned the view.  Flattened schema
paths are never proper prefixes of one another, so an intermediate key never
holds a view; if it did, the source would fail on the subscript, and this
embedding replaces it with a fresh sub-dictionary. -/
def dictInsert : TDict → List String → TView → TDict
  | d, [], _ => d
  | .mk es, [last], v => .mk (setKey es last (Sum.inr v))
  | .mk es, k :: rest, v =>
    let sub : TDict :=
      match lookupKey es k with
      | some (Sum.inl d) => d
      | _ => .mk []
    .mk (setKey es k (Sum.inl (dictInsert sub rest v)))

/-- The dataset state the router reads: `self.shape[0]` and the keys of
`self._tensors` in registration order. -/
structure DsIndexState where
  shape0 : Int
  tensorKeys : List String

/-- Embeds `Dataset._get_dictionary` (`dataset.py:287-306`): append a `/` to
the subpath unless present, walk every registered key sharing that prefix into
a nested dictionary of views, each bound to the given range term when that
term is truthy and to the full sample range `slice(0, shape[0])` otherwise,
and raise `KeyError` when nothing matched. -/
def get_dictionary (ds : DsIndexState) (subpath : String)
    (sliceArg : Option SelTerm) : Except HubError TDict :=
  let sp := if strEndsWith subpath "/" then subpath else subpath ++ "/"
  let d := ds.tensorKeys.foldl (fun acc key =>
    if strStartsWith key sp then
      let suffix := strDrop key (strLen sp)
      let segs := splitSlash suffix
      let sl : SelTerm :=
        match sliceArg with
        | some t => if t.truthy then t else .rng 0 ds.shape0
        | none => .rng 0 ds.shape0
      dictInsert acc segs ⟨key, .one sl⟩
    else acc) (.mk [])
  if d.entries.isEmpty then .error (.keyError sp) else .ok d

/-- The value `__getitem__` returns: a whole-dataset view, a field view, or a
grouped dictionary of field views. -/
inductive GetResult where
  | dsView (num ofs : Int)
  | tv (v : TView)
  | dict (d : TDict)

/-- Embeds `Dataset.__getitem__` (`dataset.py:181-217`): split the selector;
with no subpath, more than one term is rejected and a single term resolves to
a whole-dataset view; with a subpath and no terms, a registered field yields a
full-range field view and anything else the grouped dictionary; with a subpath
and terms, the first term is validated against the sample dimension, a
registered field yields a field view over the term list, several terms on a
group are rejected, and one term on a group yields the grouped dictionary
constrained by it. -/
def getitem (ds : DsIndexState) (sel : List SelTerm) : Except HubError GetResult :=
  let (subpath, slice_list) := slice_split sel
  match subpath with
  | none =>
    if slice_list.length > 1 then
      .error (.invalidSelector
        "cannot slice a dataset with multiple slices without subpath")
    else
      match slice_list with
      | [] => .error .indexError
      | t0 :: _ =>
        match slice_extract_info t0 ds.shape0 with
        | .error e => .error e
        | .ok (num, ofs) => .ok (.dsView num ofs)
  | some sp =>
    if slice_list.isEmpty then
      if ds.tensorKeys.contains sp then
        .ok (.tv ⟨sp, .one (.rng 0 ds.shape0)⟩)
      else
        match get_dictionary ds sp none with
        | .error e => .error e
        | .ok d => .ok (.dict d)
    else
      match slice_list with
      | [] => .error .indexError
      | t0 :: _ =>
        match slice_extract_info t0 ds.shape0 with
        | .error e => .error e
        | .ok _ =>
          if ds.tensorKeys.contains sp then
            .ok (.tv ⟨sp, .many slice_list⟩)
          else if slice_list.length > 1 then
            .error (.invalidSelector "cannot slice a dictionary of Tensors")
          else
            match get_dictionary ds sp (some t0) with
            | .error e => .error e
            | .ok d => .ok (.dict d)

/-- A dataset of ten samples with the two fields of `demoSchema`. -/
def dsGroup : DsIndexState :=
  ⟨10, ["/group/a", "/group/b"]⟩

/-- C5 (evidence): reading `ds["group", 0]` — a group subpath with the single
range term `0` — returns every member view bound to the FULL sample range
`slice(0, 10)`, because `slice_ if slice_ else slice(0, self.shape[0])`
treats the integer `0` as falsy; the same selector with term `2` binds the
members to `2` as the claim describes for every term. -/
theorem c5_zero_term_not_applied :
    getitem dsGroup [.path "group", .index 0] =
      .ok (.dict (.mk [("a", Sum.inr ⟨"/group/a", .one (.rng 0 10)⟩),
                       ("b", Sum.inr ⟨"/group/b", .one (.rng 0 10)⟩)]))
      ∧ getitem dsGroup [.path "group", .index 2] =
        .ok (.dict (.mk [("a", Sum.inr ⟨"/group/a", .one (.index 2)⟩),
                         ("b", Sum.inr ⟨"/group/b", .one (.index 2)⟩)])) :=
  ⟨rfl, rfl⟩

/-! ## Write resolution (`__setitem__`, `dataset.py:219-238`) -/

/-- The range a write targets: Python `t[:] = value` (the field's full sample
range) or `t[slice_list] = value` (restricted by the term list). -/
inductive WriteSlice where
  | fullRange
  | terms (ts : List SelTerm)
deriving DecidableEq, Repr

/-- The dataset state writes act on: the sample bound, the registered field
paths, and the log of performed assignments in order. -/
structure DsWriteState (V : Type) where
  shape0 : Int
  tensorKeys : List String
  writes : List (String × WriteSlice × V)
deriving DecidableEq, Repr

/-- Embeds `Dataset.__setitem__` (`dataset.py:219-238`): split the selector;
no subpath raises `ValueError`; otherwise `self._tensors[subpath]` is looked
up (raising `KeyError` when the subpath is not a registered field) and the
value is assigned to the full sample range when no range terms remain, and to
exactly those terms otherwise. -/
def setitem {V : Type} (ds : DsWriteState V) (sel : List SelTerm) (v : V) :
    DsWriteState V × Except HubError Unit :=
  let (subpath, slice_list) := slice_split sel
  match subpath with
  | none =>
    (ds, .error (.invalidSelector "cannot assign to dataset sliced without subpath"))
  | some sp =>
    if slice_list.isEmpty then
      if ds.tensorKeys.contains sp then
        ({ ds with writes := ds.writes ++ [(sp, .fullRange, v)] }, .ok ())
      else (ds, .error (.keyError sp))
    else
      if ds.tensorKeys.contains sp then
        ({ ds with writes := ds.writes ++ [(sp, .terms slice_list, v)] }, .ok ())
      else (ds, .error (.keyError sp))

/-- Whether a selector begins with a path term. -/
def hasLeadingPath : List SelTerm → Bool
  | .path _ :: _ => true
  | _ => false

/-- C6: a write with no subpath always fails `InvalidSelector`, whatever its
range terms, and leaves the dataset unchanged; a write to a registered field
with no range terms assigns the value to that field's full sample range; a
write to a registered field with range terms assigns restricted to exactly
those terms. -/
theorem c6_write_resolution {V : Type} (ds : DsWriteState V) (v : V) :
    (∀ sel : List SelTerm, hasLeadingPath sel = false →
        setitem ds sel v =
          (ds, .error (.invalidSelector
            "cannot assign to dataset sliced without subpath"))) ∧
    (∀ s : String, ds.tensorKeys.contains (normalizePath s) = true →
        setitem ds [.path s] v =
          ({ ds with writes := ds.writes ++ [(normalizePath s, .fullRange, v)] },
            .ok ())) ∧
    (∀ (s : String) (ts : List SelTerm), ts ≠ [] →
        ds.tensorKeys.contains (normalizePath s) = true →
        setitem ds (.path s :: ts) v =
          ({ ds with writes := ds.writes ++ [(normalizePath s, .terms ts, v)] },
            .ok ())) := by
  refine ⟨?_, ?_, ?_⟩
  · intro sel h
    match sel with
    | [] => rfl
    | .path s :: rest => simp [hasLeadingPath] at h
    | .index i :: rest => rfl
    | .rng a b :: rest => rfl
  · intro s h
    have h2 : normalizePath s ∈ ds.tensorKeys := by simpa using h
    simp [setitem, slice_split, h2]
  · intro s ts hne h
    have h2 : normalizePath s ∈ ds.tensorKeys := by simpa using h
    match ts with
    | [] => cases hne rfl
    | t :: rest => simp [setitem, slice_split, h2]

/-- A one-field write state over natural-number values. -/
def dsWriteDemo : DsWriteState Nat :=
  ⟨10, ["/label"], []⟩

/-- Witness for C6: a term-only write fails, a bare field write logs a
full-range assignment, a field write with a term logs that term. -/
theorem c6_write_resolution_witness :
    setitem dsWriteDemo [SelTerm.index 3] 5 =
      (dsWriteDemo, .error (.invalidSelector
        "cannot assign to dataset sliced without subpath")) ∧
    setitem dsWriteDemo [SelTerm.path "label"] 5 =
      ({ dsWriteDemo with
          writes := dsWriteDemo.writes ++ [(normalizePath "label", .fullRange, 5)] },
        .ok ()) ∧
    setitem dsWriteDemo [SelTerm.path "label", SelTerm.index 3] 5 =
      ({ dsWriteDemo with
          writes := dsWriteDemo.writes ++
            [(normalizePath "label", .terms [SelTerm.index 3], 5)] },
        .ok ()) :=
  ⟨(c6_write_resolution dsWriteDemo 5).1 [SelTerm.index 3] rfl,
   (c6_write_resolution dsWriteDemo 5).2.1 "label" rfl,
   (c6_write_resolution dsWriteDemo 5).2.2 "label" [SelTerm.index 3]
     (by decide) rfl⟩

/-- C10: a write whose subpath is not a registered leaf field — a group
prefix of registered fields included — fails with the missing-key error of
the `self._tensors[subpath]` registry lookup, not `InvalidSelector`, and
modifies no field's data. -/
theorem c10_group_write_keyerror {V : Type} (ds : DsWriteState V) (v : V)
    (s : String) (ts : List SelTerm)
    (h : ds.tensorKeys.contains (normalizePath s) = false) :
    setitem ds (.path s :: ts) v =
      (ds, .error (.keyError (normalizePath s))) := by
  have h2 : normalizePath s ∉ ds.tensorKeys := by
    simpa using h
  cases ts <;> simp [setitem, slice_split, h2]

/-- Witness for C10: writing to the group prefix `group` of the registered
field `/group/a` fails with `KeyError` and changes nothing. -/
theorem c10_group_write_keyerror_witness :
    setitem (⟨10, ["/group/a"], []⟩ : DsWriteState Nat) [SelTerm.path "group"] 5 =
      ((⟨10, ["/group/a"], []⟩ : DsWriteState Nat),
        .error (.keyError (normalizePath "group"))) :=
  c10_group_write_keyerror (⟨10, ["/group/a"], []⟩ : DsWriteState Nat) 5
    "group" [] rfl

/-! ## Scoped use (`__enter__`/`__exit__`, `dataset.py:324-328`) -/

/-- The commit-relevant dataset state: the field handles in registry order and
the log of flushed handles. -/
structure CommitState where
  tensors : List String
  commitLog : List String

/-- Embeds `Dataset.commit` (`dataset.py:317-322`): flushes every field handle
in registry order. -/
def datasetCommit (st : CommitState) : CommitState :=
  { st with commitLog := st.commitLog ++ st.tensors }

/-- Embeds `Dataset.__exit__` (`dataset.py:327-328`): calls `self.commit()`
once and implicitly returns `None`, a falsy value. -/
def datasetExit (st : CommitState) (_excInfo : Option Nat) :
    CommitState × Option Bool :=
  (datasetCommit st, none)

/-- Python `with` semantics over the exit handler: run the body to its state
and optional propagating exception, call `__exit__` once with that exception
info, and propagate the exception unless the handler returned a truthy
value. -/
def withDataset (st : CommitState)
    (body : CommitState → CommitState × Option Nat) : CommitState × Option Nat :=
  let (st1, exc) := body st
  let (st2, ret) := datasetExit st1 exc
  match exc with
  | none => (st2, none)
  | some e => if ret.getD false then (st2, none) else (st2, some e)

/-- C8: along every exit path of a scoped use — the normal path and the path
with a propagating exception alike — the exit handler applies `commit()`
exactly once to the body's final state, and the propagating exception (if
any) is re-raised, never suppressed. -/
theorem c8_exit_commits_once (st : CommitState)
    (body : CommitState → CommitState × Option Nat) :
    withDataset st body = (datasetCommit (body st).1, (body st).2) := by
  rcases hb : body st with ⟨st1, exc⟩
  cases exc <;> simp [withDataset, datasetExit, hb]

end Hub
